import Mathlib

/-!
Verification of the checkpoint-state resolution and retrieval subsystem of
`pico-analyze` (`src/utils/data.py`), by a shallow embedding in Lean 4.

Modelling conventions:
* The filesystem is a state `FileSystem` giving `os.path.exists` (`pathExists`)
  and file contents (`readFile`); `os.path.join a b` is `a ++ "/" ++ b` (the
  code only joins relative components).
* External collaborators (HuggingFace hub API, the YAML parser, `torch.load`,
  `load_from_disk`) are an environment `PyEnv` of pure functions; a loaded
  tensor bundle or dataset is modelled as an opaque value tagged by the path
  it was loaded from.
* Python exceptions become an `Except PyError` result.  The spec's error
  taxonomy corresponds to the code as follows: `LocationNotFoundError` is the
  builtin `ValueError` raised for structural local-path problems
  (`PyError.valueError`), `ConfigParseError` is the `yaml.YAMLError` raised by
  `yaml.safe_load` on malformed input (`PyError.yamlError`), and the builtin
  `FileNotFoundError` raised by `open()` is `PyError.fileNotFoundError`.
  `InvalidStepError(step, message)` is imported from
  `src/utils/exceptions.py`, which is not among the sources; per the spec it
  carries the step and a message (`PyError.invalidStepError`).
* `functools.lru_cache` on `_get_learning_dynamics_commits` is modelled by
  explicit state passing: a `CacheState` holds the memo table keyed by the
  argument triple, plus a counter of remote commit-listing calls (the
  observable the spec's call-count property talks about).  The two keys used
  by the claims never evict each other, so the default `maxsize=128` bound is
  not modelled.
* `re.search` of the pattern
  `rf"Saving Learning Dynamics Data \({data_split}\) -- Step (\d+)"` is
  modelled at the string level: find the leftmost position where the title
  contains the literal text `"Saving Learning Dynamics Data (" ++ data_split
  ++ ") -- Step "` followed immediately by at least one digit, and take the
  maximal digit run there (greedy `\d+`).  This is faithful for `data_split`
  values containing no regex metacharacters (the repository uses `"train"`
  and `"val"`); note that in the pattern the parentheses around `\d+` form a
  capture group, not literal parentheses.
-/

/-- Filesystem state: `pathExists` models `os.path.exists`, `readFile` the
contents handed to `yaml.safe_load` after `open(...)`. -/
structure FileSystem where
  pathExists : String → Bool
  readFile : String → String

/-- An opaque parsed YAML document (the dict returned by `yaml.safe_load`). -/
structure YamlDoc where
  val : String
deriving DecidableEq, Repr

/-- A commit returned by `HfApi().list_repo_commits`: title, commit id,
creation timestamp (opaque, as a `Nat`). -/
structure Commit where
  title : String
  commit_id : String
  created_at : Nat
deriving DecidableEq, Repr

/-- Environment of external collaborators, as pure functions.
`listRepoCommits` is `HfApi().list_repo_commits(repo_id, revision=branch)`;
`snapshotDownload` is `snapshot_download(repo_id, revision)` returning the
materialized directory; `hfHubDownload` is `hf_hub_download(repo_id, revision,
filename)` returning a local file path; `yamlSafeLoad` is `yaml.safe_load`,
with `none` modelling a raised `yaml.YAMLError`. -/
structure PyEnv where
  listRepoCommits : String → String → List Commit
  snapshotDownload : String → String → String
  hfHubDownload : String → String → String → String
  yamlSafeLoad : String → Option YamlDoc

/-- Python exceptions raised by `src/utils/data.py`. -/
inductive PyError where
  /-- builtin `ValueError(msg)` (the spec's `LocationNotFoundError`). -/
  | valueError (msg : String)
  /-- `InvalidStepError(step, msg)` from `src/utils/exceptions.py`. -/
  | invalidStepError (step : Int) (msg : String)
  /-- `yaml.YAMLError` from `yaml.safe_load` (the spec's `ConfigParseError`). -/
  | yamlError
  /-- builtin `FileNotFoundError` from `open()` on a missing path. -/
  | fileNotFoundError (path : String)
deriving DecidableEq, Repr

/-- A value stored in the checkpoint-states dict: `torch.load(file_path)` or
`load_from_disk(dataset_path)`, opaque and tagged by the path loaded. -/
inductive StateValue where
  | tensors (file_path : String)
  | dataset (dataset_path : String)
deriving DecidableEq, Repr

/-- The dict returned by `_get_checkpoint_states_dict`, as an association
list in Python dict insertion order. -/
abbrev StatesDict := List (String × StateValue)

/-- One value of `_get_learning_dynamics_commits`'s dict:
`{"commit_id": ..., "date": ..., "message": ...}`. -/
structure CommitEntry where
  commit_id : String
  date : Nat
  message : String
deriving DecidableEq, Repr

/-- The commit index: a Python dict from step to entry, as an association
list in insertion order with unique keys. -/
abbrev CommitIndex := List (Int × CommitEntry)

/-- Python dict assignment `d[k] = v` on an association list with unique
keys: replace in place if the key is present, else append. -/
def dictInsert : CommitIndex → Int → CommitEntry → CommitIndex
  | [], k, v => [(k, v)]
  | p :: rest, k, v => if p.1 = k then (k, v) :: rest else p :: dictInsert rest k v

/-- Python dict lookup `d[k]` / `k in d` on an association list. -/
def dictLookup : CommitIndex → Int → Option CommitEntry
  | [], _ => none
  | p :: rest, k => if p.1 = k then some p.2 else dictLookup rest k

/-- Maximal digit run at the front of a character list (greedy `\d+`). -/
def takeDigits : List Char → List Char
  | [] => []
  | c :: cs => if c.isDigit then c :: takeDigits cs else []

/-- Value of a digit run, as Python's `int` on the matched group. -/
def digitsVal (ds : List Char) : Nat :=
  ds.foldl (fun n c => 10 * n + (c.toNat - 48)) 0

/-- Try to match the pattern at the current position: the literal marker text
followed immediately by at least one digit; return the greedy digit group. -/
def matchAt (marker : List Char) (s : List Char) : Option Nat :=
  if marker.isPrefixOf s then
    let ds := takeDigits (s.drop marker.length)
    if ds.isEmpty then none else some (digitsVal ds)
  else none

/-- Semantics of `re.search`: leftmost position where `matchAt` succeeds. -/
def reSearchStep (marker : List Char) : List Char → Option Nat
  | [] => matchAt marker []
  | c :: rest =>
    match matchAt marker (c :: rest) with
    | some n => some n
    | none => reSearchStep marker rest

/-- The literal part of the pattern
`rf"Saving Learning Dynamics Data \({data_split}\) -- Step (\d+)"`
preceding the step's digit group. -/
def titleMarker (data_split : String) : String :=
  "Saving Learning Dynamics Data (" ++ data_split ++ ") -- Step "

/-- Model of `re.search(pattern, commit.title)` and `int(match.group(1))`:
the step encoded in a commit title, if the title matches. -/
def titleStep (data_split : String) (title : String) : Option Nat :=
  reSearchStep (titleMarker data_split).toList title.toList

/-- The dict entry recorded for a matching commit. -/
def commitEntryOf (c : Commit) : CommitEntry :=
  ⟨c.commit_id, c.created_at, c.title⟩

/-- The loop of `_get_learning_dynamics_commits`: process each commit in
order, recording matching ones keyed by step. -/
def buildCommitIndex (data_split : String) (commits : List Commit) : CommitIndex :=
  commits.foldl
    (fun idx c =>
      match titleStep data_split c.title with
      | some step => dictInsert idx (Int.ofNat step) (commitEntryOf c)
      | none => idx)
    []

/-- Decides whether a commit is a matching save-event claiming step `s` for
`data_split` (used to state the duplicate-step tie-break). -/
def claimsStep (data_split : String) (s : Int) (c : Commit) : Bool :=
  match titleStep data_split c.title with
  | some n => Int.ofNat n == s
  | none => false

/-- Key of the `lru_cache` memo table: the argument triple of
`_get_learning_dynamics_commits`. -/
abbrev CacheKey := String × String × String

/-- State of the `lru_cache` on `_get_learning_dynamics_commits`, plus a
counter of `list_repo_commits` network calls. -/
structure CacheState where
  cache : List (CacheKey × CommitIndex)
  listCalls : Nat

/-- The process-start cache state: empty memo table, no network calls. -/
def initialCacheState : CacheState := ⟨[], 0⟩

/-- Memo-table lookup. -/
def cacheLookup (entries : List (CacheKey × CommitIndex)) (k : CacheKey) :
    Option CommitIndex :=
  (entries.find? (fun p => p.1 = k)).map Prod.snd

/-- Model of `_get_learning_dynamics_commits(repo_id, branch, data_split)`
under `@lru_cache()`: on a memo hit return the cached dict; on a miss call
`list_repo_commits` (counted), build the index, memoize and return it. -/
def get_learning_dynamics_commits (env : PyEnv) (st : CacheState)
    (repo_id branch data_split : String) : CommitIndex × CacheState :=
  match cacheLookup st.cache (repo_id, branch, data_split) with
  | some idx => (idx, st)
  | none =>
    let commits := env.listRepoCommits repo_id branch
    let idx := buildCommitIndex data_split commits
    (idx, ⟨st.cache ++ [((repo_id, branch, data_split), idx)], st.listCalls + 1⟩)

/-- Path of `{data_split}_{state_type}.pt` inside the learning-dynamics
directory (`os.path.join(learning_dynamics_path, f"...")`). -/
def statePath (learning_dynamics_path data_split state_type : String) : String :=
  learning_dynamics_path ++ "/" ++ data_split ++ "_" ++ state_type ++ ".pt"

/-- Path of the `{data_split}_data` dataset snapshot directory. -/
def datasetPath (learning_dynamics_path data_split : String) : String :=
  learning_dynamics_path ++ "/" ++ data_split ++ "_data"

/-- Model of `_get_checkpoint_states_dict(learning_dynamics_path,
data_split)`: for each of `activations`, `weights`, `gradients`, include
`torch.load` of the `.pt` file when it exists; then include `load_from_disk`
of the `{data_split}_data` directory under `"dataset"` when it exists. -/
def get_checkpoint_states_dict (fs : FileSystem)
    (learning_dynamics_path data_split : String) : StatesDict :=
  let states := ["activations", "weights", "gradients"].foldl
    (fun states state_type =>
      let file_path := statePath learning_dynamics_path data_split state_type
      if fs.pathExists file_path then
        states ++ [(state_type, StateValue.tensors file_path)]
      else states)
    []
  let dataset_path := datasetPath learning_dynamics_path data_split
  if fs.pathExists dataset_path then
    states ++ [("dataset", StateValue.dataset dataset_path)]
  else states

/-- Model of `_load_checkpoint_states(run_path, step, data_split)`. -/
def load_checkpoint_states (fs : FileSystem) (run_path : String) (step : Int)
    (data_split : String) : Except PyError StatesDict :=
  if ¬ fs.pathExists run_path then
    .error (.valueError ("Run path " ++ run_path ++ " does not exist"))
  else
    let checkpoint_path := run_path ++ "/checkpoint"
    if ¬ fs.pathExists checkpoint_path then
      .error (.valueError
        ("Run path " ++ run_path ++ " does not contain a checkpoint folder"))
    else
      let step_path := checkpoint_path ++ "/step_" ++ toString step
      if ¬ fs.pathExists step_path then
        .error (.invalidStepError step
          ("Step " ++ toString step ++ " does not exist in run path " ++ run_path))
      else
        let learning_dynamics_path := step_path ++ "/learning_dynamics"
        .ok (get_checkpoint_states_dict fs learning_dynamics_path data_split)

/-- Model of `_download_checkpoint_states(repo_id, branch, step,
data_split)`. -/
def download_checkpoint_states (env : PyEnv) (fs : FileSystem) (st : CacheState)
    (repo_id branch : String) (step : Int) (data_split : String) :
    Except PyError StatesDict × CacheState :=
  let r := get_learning_dynamics_commits env st repo_id branch data_split
  match dictLookup r.1 step with
  | none =>
    (.error (.invalidStepError step
      ("Step " ++ toString step ++ " does not exist in " ++ repo_id ++
        " on branch " ++ branch)), r.2)
  | some commit =>
    let checkpoint_dir := env.snapshotDownload repo_id commit.commit_id
    let learning_dynamics_path := checkpoint_dir ++ "/learning_dynamics"
    (.ok (get_checkpoint_states_dict fs learning_dynamics_path data_split), r.2)

/-- Model of `_load_training_config(run_path)`: `open` raises
`FileNotFoundError` when the file is missing; `yaml.safe_load` raises
`yaml.YAMLError` on malformed contents. -/
def load_training_config (env : PyEnv) (fs : FileSystem) (run_path : String) :
    Except PyError YamlDoc :=
  let path := run_path ++ "/training_config.yaml"
  if fs.pathExists path then
    match env.yamlSafeLoad (fs.readFile path) with
    | some doc => .ok doc
    | none => .error .yamlError
  else .error (.fileNotFoundError path)

/-- Model of `_download_training_config(repo_id, branch)`: `hf_hub_download`
fetches `training_config.yaml` from the branch tip (the returned path exists
on success), then `yaml.safe_load` reads it. -/
def download_training_config (env : PyEnv) (fs : FileSystem)
    (repo_id branch : String) : Except PyError YamlDoc :=
  let training_config_path := env.hfHubDownload repo_id branch "training_config.yaml"
  match env.yamlSafeLoad (fs.readFile training_config_path) with
  | some doc => .ok doc
  | none => .error .yamlError

/-- Modelled from the spec: `CheckpointLocation`
(`src/utils/initialization.py` is not among the sources).  A data-only
descriptor: `is_remote`, with `repo_id`/`branch` meaningful for remote
locations and `run_path` for local ones. -/
structure CheckpointLocation where
  is_remote : Bool
  repo_id : String
  branch : String
  run_path : String

/-- Model of `get_checkpoint_states(checkpoint_location, step, data_split)`:
dispatch on `is_remote`. -/
def get_checkpoint_states (env : PyEnv) (fs : FileSystem) (st : CacheState)
    (checkpoint_location : CheckpointLocation) (step : Int) (data_split : String) :
    Except PyError StatesDict × CacheState :=
  if checkpoint_location.is_remote then
    download_checkpoint_states env fs st checkpoint_location.repo_id
      checkpoint_location.branch step data_split
  else
    (load_checkpoint_states fs checkpoint_location.run_path step data_split, st)

/-- Model of `get_training_config(checkpoint_location)`: dispatch on
`is_remote`. -/
def get_training_config (env : PyEnv) (fs : FileSystem)
    (checkpoint_location : CheckpointLocation) : Except PyError YamlDoc :=
  if checkpoint_location.is_remote then
    download_training_config env fs checkpoint_location.repo_id
      checkpoint_location.branch
  else
    load_training_config env fs checkpoint_location.run_path

/-- The spec's commit-message contract, from the spec's words (for comparison
with the code's matcher): a title that literally IS
`"Saving Learning Dynamics Data ({split}) -- Step ({digits})"`. -/
def specLiteralTitle (data_split : String) (step : Nat) : String :=
  "Saving Learning Dynamics Data (" ++ data_split ++ ") -- Step (" ++
    toString step ++ ")"

/-- What the code's matcher actually recognizes, stated declaratively: the
title contains the marker text followed immediately by at least one digit. -/
def recognizedSpec (data_split title : String) : Prop :=
  ∃ pre d rest, title.toList = pre ++ (titleMarker data_split).toList ++ d :: rest ∧
    d.isDigit = true

/-! ### Helper lemmas -/

theorem statePath_eq_append (d s t : String) :
    statePath d s t = d ++ ("/" ++ s ++ "_" ++ t ++ ".pt") := by
  simp [statePath, String.append_assoc]

theorem datasetPath_eq_append (d s : String) :
    datasetPath d s = d ++ ("/" ++ s ++ "_data") := by
  simp [datasetPath, String.append_assoc]

theorem get_checkpoint_states_dict_eq (fs : FileSystem) (dir split : String) :
    get_checkpoint_states_dict fs dir split =
      (if fs.pathExists (statePath dir split "activations") then
        [("activations", StateValue.tensors (statePath dir split "activations"))]
      else []) ++
      (if fs.pathExists (statePath dir split "weights") then
        [("weights", StateValue.tensors (statePath dir split "weights"))]
      else []) ++
      (if fs.pathExists (statePath dir split "gradients") then
        [("gradients", StateValue.tensors (statePath dir split "gradients"))]
      else []) ++
      (if fs.pathExists (datasetPath dir split) then
        [("dataset", StateValue.dataset (datasetPath dir split))]
      else []) := by
  simp only [get_checkpoint_states_dict, List.foldl]
  split_ifs <;> simp

theorem get_checkpoint_states_dict_empty (fs : FileSystem) (dir split : String)
    (ha : fs.pathExists (statePath dir split "activations") = false)
    (hw : fs.pathExists (statePath dir split "weights") = false)
    (hg : fs.pathExists (statePath dir split "gradients") = false)
    (hd : fs.pathExists (datasetPath dir split) = false) :
    get_checkpoint_states_dict fs dir split = [] := by
  rw [get_checkpoint_states_dict_eq]
  simp [ha, hw, hg, hd]

/-! ### Claims -/

/-- C2: for every local retrieval call, a missing `run_path`, or a present
`run_path` without a `checkpoint` subdirectory, fails with the structural
`ValueError` (the spec's `LocationNotFoundError`); the missing-`run_path`
failure is raised for every step and split, before any step-specific
check. -/
theorem local_structural_errors (env : PyEnv) (fs : FileSystem) (st : CacheState)
    (loc : CheckpointLocation) (step : Int) (data_split : String)
    (hloc : loc.is_remote = false) :
    (fs.pathExists loc.run_path = false →
      (get_checkpoint_states env fs st loc step data_split).1 =
        .error (.valueError ("Run path " ++ loc.run_path ++ " does not exist"))) ∧
    (fs.pathExists loc.run_path = true →
      fs.pathExists (loc.run_path ++ "/checkpoint") = false →
      (get_checkpoint_states env fs st loc step data_split).1 =
        .error (.valueError ("Run path " ++ loc.run_path ++
          " does not contain a checkpoint folder"))) := by
  constructor
  · intro h
    simp [get_checkpoint_states, hloc, load_checkpoint_states, h]
  · intro h1 h2
    simp [get_checkpoint_states, hloc, load_checkpoint_states, h1, h2]

/-- Witness for C2: the run path `/nonexistent` is absent for a concrete
filesystem, so the structural error is raised for step 7, split `val`. -/
theorem local_structural_errors_witness :
    (get_checkpoint_states
      ⟨fun _ _ => [], fun _ _ => "", fun _ _ _ => "", fun _ => none⟩
      ⟨fun _ => false, fun _ => ""⟩ initialCacheState
      ⟨false, "", "", "/nonexistent"⟩ 7 "val").1 =
      .error (.valueError ("Run path " ++ "/nonexistent" ++ " does not exist")) :=
  (local_structural_errors _ _ _ _ 7 "val" rfl).1 rfl

/-- C6: the State Bundle Loader's result has each of `activations`,
`weights`, `gradients` exactly when `{split}_{kind}.pt` exists, has
`dataset` exactly when the `{split}_data` directory exists, and is empty
(without error) when none of the four exists. -/
theorem bundle_keys_iff_files (fs : FileSystem) (dir split : String) :
    ("activations" ∈ (get_checkpoint_states_dict fs dir split).map Prod.fst ↔
      fs.pathExists (statePath dir split "activations") = true) ∧
    ("weights" ∈ (get_checkpoint_states_dict fs dir split).map Prod.fst ↔
      fs.pathExists (statePath dir split "weights") = true) ∧
    ("gradients" ∈ (get_checkpoint_states_dict fs dir split).map Prod.fst ↔
      fs.pathExists (statePath dir split "gradients") = true) ∧
    ("dataset" ∈ (get_checkpoint_states_dict fs dir split).map Prod.fst ↔
      fs.pathExists (datasetPath dir split) = true) ∧
    (fs.pathExists (statePath dir split "activations") = false →
      fs.pathExists (statePath dir split "weights") = false →
      fs.pathExists (statePath dir split "gradients") = false →
      fs.pathExists (datasetPath dir split) = false →
      get_checkpoint_states_dict fs dir split = []) := by
  rw [get_checkpoint_states_dict_eq]
  split_ifs <;> simp_all

/-- Witness for C6: a filesystem with no files yields the empty bundle. -/
theorem bundle_keys_iff_files_witness :
    get_checkpoint_states_dict ⟨fun _ => false, fun _ => ""⟩ "d" "val" = [] :=
  (bundle_keys_iff_files ⟨fun _ => false, fun _ => ""⟩ "d" "val").2.2.2.2
    rfl rfl rfl rfl

/-- C8: when `training_config.yaml` exists but is malformed (`yaml.safe_load`
raises), `get_training_config` fails with the YAML parse error (the spec's
`ConfigParseError`), in both the local and the remote loader. -/
theorem config_parse_error_on_malformed (env : PyEnv) (fs : FileSystem)
    (loc : CheckpointLocation) :
    (loc.is_remote = false →
      fs.pathExists (loc.run_path ++ "/training_config.yaml") = true →
      env.yamlSafeLoad (fs.readFile (loc.run_path ++ "/training_config.yaml")) = none →
      get_training_config env fs loc = .error .yamlError) ∧
    (loc.is_remote = true →
      env.yamlSafeLoad (fs.readFile
        (env.hfHubDownload loc.repo_id loc.branch "training_config.yaml")) = none →
      get_training_config env fs loc = .error .yamlError) := by
  constructor
  · intro hloc h1 h2
    simp [get_training_config, hloc, load_training_config, h1, h2]
  · intro hloc h1
    simp [get_training_config, hloc, download_training_config, h1]

/-- Witness for C8: a parser that rejects everything makes both a local and
a remote `get_training_config` call fail with the YAML parse error. -/
theorem config_parse_error_on_malformed_witness :
    get_training_config
      ⟨fun _ _ => [], fun _ _ => "", fun _ _ _ => "", fun _ => none⟩
      ⟨fun _ => true, fun _ => ""⟩ ⟨false, "", "", "/run"⟩ = .error .yamlError ∧
    get_training_config
      ⟨fun _ _ => [], fun _ _ => "", fun _ _ _ => "", fun _ => none⟩
      ⟨fun _ => true, fun _ => ""⟩ ⟨true, "org/model", "main", ""⟩ =
      .error .yamlError :=
  ⟨(config_parse_error_on_malformed _ _ _).1 rfl rfl rfl,
   (config_parse_error_on_malformed _ _ _).2 rfl rfl⟩

/-- C10: for a local location whose run directory lacks
`training_config.yaml`, `get_training_config` propagates the builtin
file-not-found error from `open()`, and raises neither the structural
`ValueError` (the spec's `LocationNotFoundError`) nor the YAML parse error
(the spec's `ConfigParseError`). -/
theorem missing_local_config_not_mapped (env : PyEnv) (fs : FileSystem)
    (loc : CheckpointLocation) (hloc : loc.is_remote = false)
    (h : fs.pathExists (loc.run_path ++ "/training_config.yaml") = false) :
    get_training_config env fs loc =
      .error (.fileNotFoundError (loc.run_path ++ "/training_config.yaml")) ∧
    (∀ msg, get_training_config env fs loc ≠ .error (.valueError msg)) ∧
    get_training_config env fs loc ≠ .error .yamlError := by
  have heq : get_training_config env fs loc =
      .error (.fileNotFoundError (loc.run_path ++ "/training_config.yaml")) := by
    simp [get_training_config, hloc, load_training_config, h]
  refine ⟨heq, ?_, ?_⟩
  · intro msg
    rw [heq]
    simp
  · rw [heq]
    simp

/-- Witness for C10: a local location with an empty filesystem propagates
the builtin file-not-found error for its config path. -/
theorem missing_local_config_not_mapped_witness :
    get_training_config
      ⟨fun _ _ => [], fun _ _ => "", fun _ _ _ => "", fun _ => some ⟨""⟩⟩
      ⟨fun _ => false, fun _ => ""⟩ ⟨false, "", "", "/run"⟩ =
      .error (.fileNotFoundError ("/run" ++ "/training_config.yaml")) :=
  (missing_local_config_not_mapped _ _ _ rfl rfl).1

theorem dictLookup_dictInsert (idx : CommitIndex) (k : Int) (v : CommitEntry)
    (s : Int) :
    dictLookup (dictInsert idx k v) s =
      if k = s then some v else dictLookup idx s := by
  induction idx with
  | nil => simp [dictInsert, dictLookup]
  | cons p rest ih =>
    simp only [dictInsert]
    by_cases h1 : p.1 = k
    · subst h1
      by_cases h2 : p.1 = s <;> simp [dictLookup, h2]
    · by_cases h2 : p.1 = s
      · subst h2
        have hk : ¬ k = p.1 := fun he => h1 he.symm
        simp [dictLookup, h1, hk]
      · simp [dictLookup, h1, h2, ih]

theorem buildCommitIndex_loop_lookup (data_split : String) (s : Int)
    (commits : List Commit) (acc : CommitIndex) :
    dictLookup (commits.foldl
      (fun idx c =>
        match titleStep data_split c.title with
        | some step => dictInsert idx (Int.ofNat step) (commitEntryOf c)
        | none => idx) acc) s =
    ((commits.reverse.find? (claimsStep data_split s)).map commitEntryOf).or
      (dictLookup acc s) := by
  induction commits generalizing acc with
  | nil => simp
  | cons c cs ih =>
    rw [List.foldl_cons, ih, List.reverse_cons, List.find?_append]
    cases hf : cs.reverse.find? (claimsStep data_split s) with
    | some c' => simp [Option.or]
    | none =>
      cases ht : titleStep data_split c.title with
      | some n =>
        by_cases hs : (n : Int) = s
        · simp [Option.or, ht, dictLookup_dictInsert, hs, List.find?, claimsStep,
            beq_self_eq_true]
        · have hbeq : ((n : Int) == s) = false := beq_eq_false_iff_ne.mpr hs
          simp [Option.or, ht, dictLookup_dictInsert, hs, List.find?, claimsStep,
            hbeq]
      | none =>
        simp [Option.or, ht, List.find?, claimsStep]

theorem buildCommitIndex_singleton (data_split title cid : String) (date : Nat) :
    buildCommitIndex data_split [⟨title, cid, date⟩] =
      (match titleStep data_split title with
       | some n => [(Int.ofNat n, ⟨cid, date, title⟩)]
       | none => []) := by
  unfold buildCommitIndex
  cases h : titleStep data_split title <;> simp [h, dictInsert, commitEntryOf]

/-- C4: when two or more matching save-events claim the same step, the
commit index maps that step to the entry of the last-processed matching
event in the input ordering of the listed commits (the last matching
element, i.e. the first match in the reversed list), deterministically. -/
theorem duplicate_step_last_wins (data_split : String) (commits : List Commit)
    (s : Int)
    (h : 2 ≤ (commits.filter (claimsStep data_split s)).length) :
    dictLookup (buildCommitIndex data_split commits) s =
      (commits.reverse.find? (claimsStep data_split s)).map commitEntryOf := by
  unfold buildCommitIndex
  rw [buildCommitIndex_loop_lookup]
  cases commits.reverse.find? (claimsStep data_split s) <;>
    simp [Option.or, dictLookup]

/-- Witness for C4: two commits both claiming step 5; the index returns the
later-processed one (`c2`). -/
theorem duplicate_step_last_wins_witness :
    2 ≤ (([⟨"Saving Learning Dynamics Data (val) -- Step 5", "c1", 0⟩,
           ⟨"Saving Learning Dynamics Data (val) -- Step 5", "c2", 1⟩] :
          List Commit).filter (claimsStep "val" 5)).length ∧
    dictLookup (buildCommitIndex "val"
        [⟨"Saving Learning Dynamics Data (val) -- Step 5", "c1", 0⟩,
         ⟨"Saving Learning Dynamics Data (val) -- Step 5", "c2", 1⟩]) 5 =
      (([⟨"Saving Learning Dynamics Data (val) -- Step 5", "c1", 0⟩,
         ⟨"Saving Learning Dynamics Data (val) -- Step 5", "c2", 1⟩] :
        List Commit).reverse.find? (claimsStep "val" 5)).map commitEntryOf ∧
    dictLookup (buildCommitIndex "val"
        [⟨"Saving Learning Dynamics Data (val) -- Step 5", "c1", 0⟩,
         ⟨"Saving Learning Dynamics Data (val) -- Step 5", "c2", 1⟩]) 5 =
      some ⟨"c2", 1, "Saving Learning Dynamics Data (val) -- Step 5"⟩ :=
  ⟨by decide,
   duplicate_step_last_wins "val"
     [⟨"Saving Learning Dynamics Data (val) -- Step 5", "c1", 0⟩,
      ⟨"Saving Learning Dynamics Data (val) -- Step 5", "c2", 1⟩] 5 (by decide),
   by decide⟩

/-- C5: starting from a fresh cache, two resolver calls with an identical
`(repo_id, branch, data_split)` triple make exactly one `list_repo_commits`
network call between them, and the second call returns the cached
step-to-entry mapping (the first call's result, with the cache state
unchanged). -/
theorem commit_index_cached_second_call (env : PyEnv)
    (repo_id branch data_split : String) :
    (get_learning_dynamics_commits env
        (get_learning_dynamics_commits env initialCacheState
          repo_id branch data_split).2 repo_id branch data_split).1 =
      (get_learning_dynamics_commits env initialCacheState
        repo_id branch data_split).1 ∧
    (get_learning_dynamics_commits env
        (get_learning_dynamics_commits env initialCacheState
          repo_id branch data_split).2 repo_id branch data_split).2.listCalls = 1 ∧
    (get_learning_dynamics_commits env initialCacheState
      repo_id branch data_split).2.listCalls = 1 ∧
    (get_learning_dynamics_commits env
        (get_learning_dynamics_commits env initialCacheState
          repo_id branch data_split).2 repo_id branch data_split).2 =
      (get_learning_dynamics_commits env initialCacheState
        repo_id branch data_split).2 := by
  simp [get_learning_dynamics_commits, initialCacheState, cacheLookup, List.find?]

/-- C3 (amended): a save-event titled
`"Saving Learning Dynamics Data (val) -- Step 12"` — step digits not
parenthesized, since the pattern's parentheses around the digits form a
regex capture group — is recorded with step 12 when resolving for split
`val`; an event whose title carries split `train` is excluded from the
index built for split `val`; and malformed titles (no digits, wrong verb,
unrelated commits) are silently skipped without raising any error. -/
theorem commit_title_parsing (cid : String) (date : Nat) :
    dictLookup (buildCommitIndex "val"
        [⟨"Saving Learning Dynamics Data (val) -- Step 12", cid, date⟩]) 12 =
      some ⟨cid, date, "Saving Learning Dynamics Data (val) -- Step 12"⟩ ∧
    buildCommitIndex "val"
        [⟨"Saving Learning Dynamics Data (train) -- Step 12", cid, date⟩] = [] ∧
    buildCommitIndex "val"
        [⟨"Saving Learning Dynamics Data (val) -- Step ", cid, date⟩] = [] ∧
    buildCommitIndex "val" [⟨"Update README", cid, date⟩] = [] ∧
    buildCommitIndex "val"
        [⟨"Uploading Learning Dynamics Data (val) -- Step 12", cid, date⟩] = [] := by
  have h1 : titleStep "val" "Saving Learning Dynamics Data (val) -- Step 12" =
      some 12 := by decide
  have h2 : titleStep "val" "Saving Learning Dynamics Data (train) -- Step 12" =
      none := by decide
  have h3 : titleStep "val" "Saving Learning Dynamics Data (val) -- Step " =
      none := by decide
  have h4 : titleStep "val" "Update README" = none := by decide
  have h5 : titleStep "val" "Uploading Learning Dynamics Data (val) -- Step 12" =
      none := by decide
  refine ⟨?_, ?_, ?_, ?_, ?_⟩
  · rw [buildCommitIndex_singleton, h1]
    rfl
  · rw [buildCommitIndex_singleton, h2]
  · rw [buildCommitIndex_singleton, h3]
  · rw [buildCommitIndex_singleton, h4]
  · rw [buildCommitIndex_singleton, h5]

/-- C3 counterexample: the title claimed by the spec,
`"Saving Learning Dynamics Data (val) -- Step (12)"`, is NOT recorded when
resolving for split `val` — in the pattern
`rf"... -- Step (\d+)"` the parentheses around `\d+` are a capture group,
not literal characters, so the parenthesized step digits fail to match. -/
theorem commit_title_parsing_counterexample :
    buildCommitIndex "val"
        [⟨"Saving Learning Dynamics Data (val) -- Step (12)", "c1", 0⟩] = [] ∧
    dictLookup (buildCommitIndex "val"
        [⟨"Saving Learning Dynamics Data (val) -- Step (12)", "c1", 0⟩]) 12 =
      none := by
  decide

/-- C9: the local retrieval path never checks that the `learning_dynamics`
directory exists — when `run_path`, `run_path/checkpoint` and the
`step_{step}` directory all exist but nothing at or under the step's
`learning_dynamics` subdirectory does, `get_checkpoint_states` returns an
empty bundle rather than raising any error. -/
theorem no_learning_dynamics_dir_check (env : PyEnv) (fs : FileSystem)
    (st : CacheState) (loc : CheckpointLocation) (step : Int)
    (data_split : String) (hloc : loc.is_remote = false)
    (h1 : fs.pathExists loc.run_path = true)
    (h2 : fs.pathExists (loc.run_path ++ "/checkpoint") = true)
    (h3 : fs.pathExists
      (loc.run_path ++ "/checkpoint" ++ "/step_" ++ toString step) = true)
    (h4 : ∀ q : String, fs.pathExists
      (loc.run_path ++ "/checkpoint" ++ "/step_" ++ toString step ++
        "/learning_dynamics" ++ q) = false) :
    (get_checkpoint_states env fs st loc step data_split).1 = .ok [] := by
  have hld : ∀ t, fs.pathExists (statePath
      (loc.run_path ++ "/checkpoint" ++ "/step_" ++ toString step ++
        "/learning_dynamics") data_split t) = false := by
    intro t
    rw [statePath_eq_append]
    exact h4 _
  have hdd : fs.pathExists (datasetPath
      (loc.run_path ++ "/checkpoint" ++ "/step_" ++ toString step ++
        "/learning_dynamics") data_split) = false := by
    rw [datasetPath_eq_append]
    exact h4 _
  have hempty : get_checkpoint_states_dict fs
      (loc.run_path ++ "/checkpoint" ++ "/step_" ++ toString step ++
        "/learning_dynamics") data_split = [] :=
    get_checkpoint_states_dict_empty _ _ _ (hld "activations") (hld "weights")
      (hld "gradients") hdd
  simp [get_checkpoint_states, hloc, load_checkpoint_states, h1, h2, h3, hempty]

/-- Witness for C9: a filesystem in which exactly the short paths (length at
most 20) exist has the run, checkpoint and step directories but nothing at
or under `learning_dynamics`; the call returns the empty bundle. -/
theorem no_learning_dynamics_dir_check_witness :
    (get_checkpoint_states
      ⟨fun _ _ => [], fun _ _ => "", fun _ _ _ => "", fun _ => none⟩
      ⟨fun p => decide (p.length ≤ 20), fun _ => ""⟩ initialCacheState
      ⟨false, "", "", "r"⟩ 3 "val").1 = .ok [] := by
  refine no_learning_dynamics_dir_check _ _ _ _ _ _ rfl (by decide) (by decide)
    (by decide) ?_
  intro q
  have h37 : ("r" ++ "/checkpoint" ++ "/step_" ++ toString (3 : Int) ++
      "/learning_dynamics").length = 37 := by decide
  show decide ((("r" ++ "/checkpoint" ++ "/step_" ++ toString (3 : Int) ++
      "/learning_dynamics") ++ q).length ≤ 20) = false
  rw [decide_eq_false_iff_not, String.length_append, h37]
  omega

/-- C1: `get_checkpoint_states` raises `InvalidStepError(step, message)`
exactly when the requested step does not exist for the location and split:
locally, when the `step_{step}` directory is absent while `run_path` and
`run_path/checkpoint` exist; remotely, when `step` is absent from the commit
index the resolver returns for `(repo_id, branch, data_split)`. -/
theorem invalid_step_error_iff (env : PyEnv) (fs : FileSystem) (st : CacheState)
    (loc : CheckpointLocation) (step : Int) (data_split : String) :
    (loc.is_remote = false →
      ((∃ msg, (get_checkpoint_states env fs st loc step data_split).1 =
          .error (.invalidStepError step msg)) ↔
        (fs.pathExists loc.run_path = true ∧
          fs.pathExists (loc.run_path ++ "/checkpoint") = true ∧
          fs.pathExists
            (loc.run_path ++ "/checkpoint" ++ "/step_" ++ toString step) =
            false))) ∧
    (loc.is_remote = true →
      ((∃ msg, (get_checkpoint_states env fs st loc step data_split).1 =
          .error (.invalidStepError step msg)) ↔
        dictLookup (get_learning_dynamics_commits env st loc.repo_id loc.branch
          data_split).1 step = none)) := by
  constructor
  · intro hloc
    by_cases hp1 : fs.pathExists loc.run_path
    · by_cases hp2 : fs.pathExists (loc.run_path ++ "/checkpoint")
      · by_cases hp3 : fs.pathExists
            (loc.run_path ++ "/checkpoint" ++ "/step_" ++ toString step)
        · simp [get_checkpoint_states, hloc, load_checkpoint_states, hp1, hp2, hp3]
        · simp [get_checkpoint_states, hloc, load_checkpoint_states, hp1, hp2, hp3]
      · simp [get_checkpoint_states, hloc, load_checkpoint_states, hp1, hp2]
    · simp [get_checkpoint_states, hloc, load_checkpoint_states, hp1]
  · intro hloc
    simp only [get_checkpoint_states, hloc, if_true, download_checkpoint_states]
    cases hdl : dictLookup (get_learning_dynamics_commits env st loc.repo_id
        loc.branch data_split).1 step with
    | none => simp [hdl]
    | some c => simp [hdl]

/-- Witness for C1: locally, run and checkpoint directories exist but
`step_3` does not, so `InvalidStepError(3, _)` is raised; remotely, an empty
commit history yields an index without step 200, so
`InvalidStepError(200, _)` is raised. -/
theorem invalid_step_error_iff_witness :
    (∃ msg, (get_checkpoint_states
      ⟨fun _ _ => [], fun _ _ => "", fun _ _ _ => "", fun _ => none⟩
      ⟨fun p => p == "r" || p == "r/checkpoint", fun _ => ""⟩
      initialCacheState ⟨false, "", "", "r"⟩ 3 "val").1 =
        .error (.invalidStepError 3 msg)) ∧
    (∃ msg, (get_checkpoint_states
      ⟨fun _ _ => [], fun _ _ => "", fun _ _ _ => "", fun _ => none⟩
      ⟨fun p => p == "r" || p == "r/checkpoint", fun _ => ""⟩
      initialCacheState ⟨true, "org/model", "main", ""⟩ 200 "val").1 =
        .error (.invalidStepError 200 msg)) :=
  ⟨((invalid_step_error_iff _ _ _ _ 3 "val").1 rfl).mpr (by decide),
   ((invalid_step_error_iff _ _ _ _ 200 "val").2 rfl).mpr (by decide)⟩

theorem matchAt_isSome_iff (marker s : List Char) :
    (matchAt marker s).isSome = true ↔
      ∃ d rest, s = marker ++ d :: rest ∧ d.isDigit = true := by
  unfold matchAt
  by_cases hp : marker.isPrefixOf s
  · obtain ⟨t, ht⟩ : ∃ t, marker ++ t = s := List.isPrefixOf_iff_prefix.mp hp
    subst ht
    simp only [hp, if_true, List.drop_left]
    cases t with
    | nil =>
      simp [takeDigits]
    | cons c cs =>
      by_cases hd : c.isDigit
      · simp [takeDigits, hd]
      · simp [takeDigits, hd]
  · rw [if_neg hp]
    simp only [Option.isSome_none, Bool.false_eq_true, false_iff]
    rintro ⟨d, rest, h, -⟩
    exact hp <| List.isPrefixOf_iff_prefix.mpr ⟨d :: rest, h.symm⟩

theorem reSearchStep_isSome_iff (marker s : List Char) :
    (reSearchStep marker s).isSome = true ↔
      ∃ pre d rest, s = pre ++ (marker ++ d :: rest) ∧ d.isDigit = true := by
  induction s with
  | nil =>
    rw [show reSearchStep marker [] = matchAt marker [] from rfl,
      matchAt_isSome_iff]
    constructor
    · rintro ⟨d, rest, h, hd⟩
      exact ⟨[], d, rest, by simpa using h, hd⟩
    · rintro ⟨pre, d, rest, h, hd⟩
      cases pre <;> simp_all
  | cons c cs ih =>
    simp only [reSearchStep]
    cases hm : matchAt marker (c :: cs) with
    | some n =>
      simp only [Option.isSome_some, true_iff]
      obtain ⟨d, rest, h, hd⟩ :=
        (matchAt_isSome_iff marker (c :: cs)).mp (by rw [hm]; rfl)
      exact ⟨[], d, rest, by simpa using h, hd⟩
    | none =>
      rw [ih]
      constructor
      · rintro ⟨pre, d, rest, h, hd⟩
        exact ⟨c :: pre, d, rest, by simp [h], hd⟩
      · rintro ⟨pre, d, rest, h, hd⟩
        cases pre with
        | nil =>
          exfalso
          have hsome : (matchAt marker (c :: cs)).isSome = true :=
            (matchAt_isSome_iff _ _).mpr ⟨d, rest, by simpa using h, hd⟩
          rw [hm] at hsome
          exact Bool.false_ne_true hsome
        | cons c' pre' =>
          simp only [List.cons_append, List.cons.injEq] at h
          exact ⟨pre', d, rest, h.2, hd⟩

theorem titleStep_isSome_iff (data_split title : String) :
    (titleStep data_split title).isSome = true ↔
      recognizedSpec data_split title := by
  unfold titleStep recognizedSpec
  rw [reSearchStep_isSome_iff]
  constructor
  · rintro ⟨pre, d, rest, h, hd⟩
    exact ⟨pre, d, rest, by simpa [List.append_assoc] using h, hd⟩
  · rintro ⟨pre, d, rest, h, hd⟩
    exact ⟨pre, d, rest, by simpa [List.append_assoc] using h, hd⟩

/-- C7 (amended): the resolver records a listed save-event exactly when its
title CONTAINS the text `"Saving Learning Dynamics Data ({split}) -- Step "`
followed immediately by at least one digit (the `re.search` containment
semantics, with the step digits not parenthesized) — not only when the title
literally is that pattern. -/
theorem save_event_recognized_iff (data_split : String) (c : Commit) :
    buildCommitIndex data_split [c] ≠ [] ↔
      recognizedSpec data_split c.title := by
  rw [← titleStep_isSome_iff]
  unfold buildCommitIndex
  simp only [List.foldl_cons, List.foldl_nil]
  cases ht : titleStep data_split c.title <;> simp [ht, dictInsert]

/-- C7 counterexample: a title that literally IS the spec's pattern
`"Saving Learning Dynamics Data (val) -- Step (12)"` (digits inside literal
parentheses) is NOT recognized by the resolver, because the parentheses
around the digits in the code's pattern are a capture group; so literal
match of the spec's contract is not what the code implements. -/
theorem save_event_recognized_counterexample :
    specLiteralTitle "val" 12 =
      "Saving Learning Dynamics Data (val) -- Step (12)" ∧
    buildCommitIndex "val" [⟨specLiteralTitle "val" 12, "c1", 0⟩] = [] := by
  decide
